import Mathlib

/-!
Shallow embedding of the card_manager Flask application (src/app.py) and of
the spec's sign table, together with proofs of the spec's testable
properties.  Float amounts and balances are modelled as rationals; the
SQLite store is a pair of lists (one per table).
-/

/-- Calendar date as parsed by the add_transaction route from the form's
YYYY-MM-DD field (src/app.py line 91).  The stored datetime's time component
is always midnight and never inspected, so it is omitted. -/
structure Date where
  year : Nat
  month : Nat
  day : Nat
deriving DecidableEq

/-- Card row (src/app.py lines 13-18): integer primary key, display name,
kind string (by convention 'debit' or 'credit', but unchecked), running
balance. -/
structure Card where
  id : Nat
  name : String
  card_type : String
  balance : ℚ
deriving DecidableEq

/-- Transaction row (src/app.py lines 23-30). -/
structure Transaction where
  id : Nat
  card_id : Nat
  transaction_type : String
  amount : ℚ
  description : String
  category : String
  date : Date
deriving DecidableEq

/-- The two tables of the database. -/
structure AppState where
  cards : List Card
  txns : List Transaction
deriving DecidableEq

/-- Zero-padding of a two-digit strftime field such as %m. -/
def pad2 (n : Nat) : String :=
  if n < 10 then "0" ++ toString n else toString n

/-- Zero-padding of the four-digit strftime field %Y. -/
def pad4 (n : Nat) : String :=
  if n < 10 then "000" ++ toString n
  else if n < 100 then "00" ++ toString n
  else if n < 1000 then "0" ++ toString n
  else toString n

/-- transaction.date.strftime('%Y-%m'), the grouping key of the index route
(src/app.py line 49). -/
def monthKey (d : Date) : String := pad4 d.year ++ "-" ++ pad2 d.month

/-- One value of the monthly_stats dict built by the index route
(src/app.py lines 50-60). -/
structure MonthStats where
  income : ℚ
  expenses : ℚ
  savings : ℚ
deriving DecidableEq

/-- The bucket the index loop (src/app.py lines 48-60) accumulates for month
key k: amount goes to income when transaction_type == 'income', otherwise to
expenses (the bare else on line 55), and savings is income - expenses. -/
def statsFor (transactions : List Transaction) (k : String) : MonthStats :=
  let ms := transactions.filter (fun t => monthKey t.date == k)
  let income := ((ms.filter (fun t => t.transaction_type == "income")).map
    (fun t => t.amount)).sum
  let expenses := ((ms.filter (fun t => !(t.transaction_type == "income"))).map
    (fun t => t.amount)).sum
  { income := income, expenses := expenses, savings := income - expenses }

/-- The sorted_months value the index route hands to the template
(src/app.py lines 44-63): one bucket per month key occurring in the
transaction table, sorted by key descending (sorted(..., reverse=True) on
line 63 compares the distinct string keys). -/
def monthly_stats (transactions : List Transaction) : List (String × MonthStats) :=
  let keys := (transactions.map (fun t => monthKey t.date)).dedup
  let sorted_months := keys.insertionSort (fun a b => b ≤ a)
  sorted_months.map (fun k => (k, statsFor transactions k))

/-- Modelled from the spec: the error taxonomy of section 7, the explicit
failure values the spec says the ledger returns.  The route code in
src/app.py never constructs any of them. -/
inductive LedgerError
  | notFound
  | invalidKind
  | invalidAmount
  | invalidDate
  | storageFailure
deriving DecidableEq

/-- Outcome of one POST /add_transaction request: the new committed state,
an explicit spec-style rejected request, or an uncaught Python exception
propagating out of the handler. -/
inductive AddTxnResult
  | ok (st : AppState)
  | rejected (e : LedgerError)
  | exn (msg : String)
deriving DecidableEq

/-- Whether the handler outcome is an explicit rejected request. -/
def AddTxnResult.isRejected : AddTxnResult → Bool
  | .rejected _ => true
  | _ => false

/-- Auto-increment primary key for a new transaction row. -/
def nextTxnId (st : AppState) : Nat := st.txns.length + 1

/-- The balance-update ladder of the add_transaction route (src/app.py lines
96-105): any card_type other than 'debit' falls into the credit branch, any
transaction_type other than 'expense' into the income branch. -/
def new_balance (card : Card) (transaction_type : String) (amount : ℚ) : ℚ :=
  if card.card_type == "debit" then
    if transaction_type == "expense" then card.balance - amount
    else card.balance + amount
  else
    if transaction_type == "expense" then card.balance + amount
    else card.balance - amount

/-- The Transaction row created on src/app.py lines 108-115. -/
def new_transaction (card_id : Nat) (transaction_type : String) (amount : ℚ)
    (description : String) (category : String) (date : Date)
    (st : AppState) : Transaction :=
  { id := nextTxnId st, card_id := card_id,
    transaction_type := transaction_type, amount := amount,
    description := description, category := category, date := date }

/-- The POST branch of the add_transaction route (src/app.py lines 84-120).
Card.query.get is a primary-key lookup; when the card is absent the lookup
yields None and the attribute access card.card_type on line 96 raises an
uncaught AttributeError.  Otherwise the card's balance is replaced by
new_balance, the new_transaction row is appended, and both effects are
committed. -/
def add_transaction (card_id : Nat) (transaction_type : String) (amount : ℚ)
    (description : String) (category : String) (date : Date)
    (st : AppState) : AddTxnResult :=
  match st.cards.find? (fun c => c.id == card_id) with
  | none => .exn "AttributeError: NoneType has no attribute card_type"
  | some card =>
    .ok { cards := st.cards.map
            (fun c => if c.id == card_id then
              { c with balance := new_balance card transaction_type amount } else c),
          txns := st.txns ++
            [new_transaction card_id transaction_type amount description category date st] }

/-- Fate of the single db.session.commit() on src/app.py line 118. -/
inductive CommitOutcome
  | committed
  | storageFailure
deriving DecidableEq

/-- add_transaction together with the fate of its single commit.  Both the
balance update and the insert are staged on the session and covered by the
one commit on line 118.  Modelled from the spec: a failing commit is the
StorageFailure of section 7 and, per the collaborator contract there, leaves
the store unchanged.  Returns the handler outcome and the store state
observable afterwards. -/
def add_transaction_withCommit (outcome : CommitOutcome) (card_id : Nat)
    (transaction_type : String) (amount : ℚ) (description : String)
    (category : String) (date : Date) (st : AppState) :
    AddTxnResult × AppState :=
  match add_transaction card_id transaction_type amount description category date st with
  | .ok staged =>
    match outcome with
    | .committed => (.ok staged, staged)
    | .storageFailure => (.exn "StorageFailure", st)
  | r => (r, st)

/-- One filled-in add_transaction form. -/
structure TxnReq where
  transaction_type : String
  amount : ℚ
  description : String
  category : String
  date : Date
deriving DecidableEq

/-- Record a sequence of transactions against one card, in order, stopping
at the first failing request. -/
def recordAll (card_id : Nat) (reqs : List TxnReq) (st : AppState) : AddTxnResult :=
  match reqs with
  | [] => .ok st
  | r :: rs =>
    match add_transaction card_id r.transaction_type r.amount r.description
        r.category r.date st with
    | .ok st' => recordAll card_id rs st'
    | other => other

/-- Balance of the card with the given primary key, when it exists. -/
def balanceOf (st : AppState) (card_id : Nat) : Option ℚ :=
  (st.cards.find? (fun c => c.id == card_id)).map (fun c => c.balance)

/-- The delete_card route (src/app.py lines 131-136): get_or_404 aborts with
a 404 page and no change when the card is absent; otherwise the delete
cascades to the card's transactions through the relationship declared on
src/app.py line 18 (cascade='all, delete-orphan'). -/
def delete_card (card_id : Nat) (st : AppState) : Option AppState :=
  match st.cards.find? (fun c => c.id == card_id) with
  | none => none
  | some _ =>
    some { cards := st.cards.filter (fun c => !(c.id == card_id)),
           txns := st.txns.filter (fun t => !(t.card_id == card_id)) }

/-- Card kinds of the spec's data model (section 3). -/
inductive CardKind
  | debit
  | credit
deriving DecidableEq

/-- Transaction kinds of the spec's data model (section 3). -/
inductive TxnKind
  | income
  | expense
deriving DecidableEq

/-- Kind string stored for a spec card kind. -/
def CardKind.str : CardKind → String
  | .debit => "debit"
  | .credit => "credit"

/-- Kind string stored for a spec transaction kind. -/
def TxnKind.str : TxnKind → String
  | .income => "income"
  | .expense => "expense"

/-- The 2x2 sign table of spec section 4.1, transcribed from the spec for
comparison with the code. -/
def specDelta : CardKind → TxnKind → ℚ → ℚ
  | .debit, .expense, amount => -amount
  | .debit, .income, amount => amount
  | .credit, .expense, amount => amount
  | .credit, .income, amount => -amount

/-- The sign table on raw kind strings: defined exactly on the four
documented combinations, nowhere else. -/
def signTableDelta (card_type transaction_type : String) (amount : ℚ) : Option ℚ :=
  if card_type == "debit" then
    if transaction_type == "expense" then some (-amount)
    else if transaction_type == "income" then some amount
    else none
  else if card_type == "credit" then
    if transaction_type == "expense" then some amount
    else if transaction_type == "income" then some (-amount)
    else none
  else none

/-- Signed balance change the add_transaction ladder (src/app.py lines
96-105) applies for the given kind strings. -/
def delta (card_type transaction_type : String) (amount : ℚ) : ℚ :=
  if card_type == "debit" then
    if transaction_type == "expense" then -amount else amount
  else
    if transaction_type == "expense" then amount else -amount

/-!  Helper lemmas about the ledger engine. -/

lemma new_balance_eq_delta (c : Card) (tt : String) (a : ℚ) :
    new_balance c tt a = c.balance + delta c.card_type tt a := by
  unfold new_balance delta
  by_cases h1 : c.card_type == "debit" <;> by_cases h2 : tt == "expense" <;>
    simp [h1, h2] <;> ring

lemma find?_update (cards : List Card) (card_id : Nat) (c : Card) (nb : ℚ)
    (h : cards.find? (fun x => x.id == card_id) = some c) :
    (cards.map (fun x => if x.id == card_id then { x with balance := nb } else x)).find?
      (fun x => x.id == card_id) = some { c with balance := nb } := by
  induction cards with
  | nil => simp at h
  | cons a l ih =>
    by_cases ha : (a.id == card_id) = true
    · rw [@List.find?_cons_of_pos _ (fun x : Card => x.id == card_id) a l ha] at h
      cases h
      simp only [List.map_cons, if_pos ha]
      exact @List.find?_cons_of_pos _ (fun x : Card => x.id == card_id) _ _ ha
    · rw [@List.find?_cons_of_neg _ (fun x : Card => x.id == card_id) a l ha] at h
      simp only [List.map_cons, if_neg ha]
      rw [@List.find?_cons_of_neg _ (fun x : Card => x.id == card_id) _ _ ha]
      exact ih h

lemma add_transaction_ok (card_id : Nat) (tt : String) (a : ℚ)
    (d cat : String) (dt : Date) (st : AppState) (c : Card)
    (h : st.cards.find? (fun x => x.id == card_id) = some c) :
    add_transaction card_id tt a d cat dt st =
      .ok { cards := st.cards.map
              (fun x => if x.id == card_id then
                { x with balance := new_balance c tt a } else x),
            txns := st.txns ++ [new_transaction card_id tt a d cat dt st] } := by
  unfold add_transaction
  rw [h]

lemma add_transaction_none (card_id : Nat) (tt : String) (a : ℚ)
    (d cat : String) (dt : Date) (st : AppState)
    (h : st.cards.find? (fun x => x.id == card_id) = none) :
    add_transaction card_id tt a d cat dt st =
      .exn "AttributeError: NoneType has no attribute card_type" := by
  unfold add_transaction
  rw [h]

lemma balance_card_type (c : Card) (nb : ℚ) :
    ({ c with balance := nb } : Card).card_type = c.card_type := rfl

lemma recordAll_ok (card_id : Nat) (reqs : List TxnReq) (st : AppState) (c : Card)
    (h : st.cards.find? (fun x => x.id == card_id) = some c) :
    ∃ st', recordAll card_id reqs st = .ok st' ∧
      st'.cards.find? (fun x => x.id == card_id) =
        some { c with balance := c.balance +
          (reqs.map (fun r => delta c.card_type r.transaction_type r.amount)).sum } := by
  induction reqs generalizing st c with
  | nil =>
    refine ⟨st, rfl, ?_⟩
    simpa using h
  | cons r rs ih =>
    rw [recordAll, add_transaction_ok card_id r.transaction_type r.amount r.description
      r.category r.date st c h]
    have hfind := find?_update st.cards card_id c (new_balance c r.transaction_type r.amount) h
    obtain ⟨st', hrec, hst'⟩ := ih
      { cards := st.cards.map (fun x => if x.id == card_id then
          { x with balance := new_balance c r.transaction_type r.amount } else x),
        txns := st.txns ++
          [new_transaction card_id r.transaction_type r.amount r.description
            r.category r.date st] }
      { c with balance := new_balance c r.transaction_type r.amount } hfind
    refine ⟨st', hrec, ?_⟩
    rw [hst']
    rw [new_balance_eq_delta]
    simp only [balance_card_type, List.map_cons, List.sum_cons]
    rw [add_assoc]

lemma delta_str (ck : CardKind) (tk : TxnKind) (a : ℚ) :
    delta ck.str tk.str a = specDelta ck tk a := by
  cases ck <;> cases tk <;> simp [delta, specDelta, CardKind.str, TxnKind.str]

lemma signTableDelta_delta (ct tt : String) (a dd : ℚ)
    (h : signTableDelta ct tt a = some dd) : delta ct tt a = dd := by
  unfold signTableDelta at h
  unfold delta
  by_cases h1 : ct == "debit" <;> by_cases h2 : tt == "expense" <;>
    by_cases h3 : tt == "income" <;> by_cases h4 : ct == "credit" <;>
    simp_all

/-!  Helper lemmas about the aggregation engine. -/

instance : IsTotal String (fun a b => b ≤ a) :=
  ⟨fun a b => le_total b a⟩

instance : IsTrans String (fun a b => b ≤ a) :=
  ⟨fun _ _ _ h1 h2 => le_trans h2 h1⟩

lemma monthly_stats_keys (ts : List Transaction) :
    (monthly_stats ts).map Prod.fst =
      ((ts.map (fun t => monthKey t.date)).dedup).insertionSort (fun a b => b ≤ a) := by
  simp only [monthly_stats, List.map_map]
  exact List.map_id _

lemma keys_nodup (ts : List Transaction) :
    ((monthly_stats ts).map Prod.fst).Nodup := by
  rw [monthly_stats_keys]
  exact (List.perm_insertionSort _ _).nodup_iff.mpr (List.nodup_dedup _)

lemma keys_sorted (ts : List Transaction) :
    ((monthly_stats ts).map Prod.fst).Sorted (fun a b => b ≤ a) := by
  rw [monthly_stats_keys]
  exact List.sorted_insertionSort _ _

lemma keys_strict_descending (ts : List Transaction) :
    ((monthly_stats ts).map Prod.fst).Pairwise (fun a b => b < a) := by
  exact (keys_sorted ts).imp₂ (fun a b hle hne => lt_of_le_of_ne hle (Ne.symm hne))
    (keys_nodup ts)

lemma mem_keys_iff (ts : List Transaction) (k : String) :
    k ∈ (monthly_stats ts).map Prod.fst ↔ ∃ t ∈ ts, monthKey t.date = k := by
  rw [monthly_stats_keys]
  simp [List.mem_insertionSort, List.mem_dedup, eq_comm]

lemma mem_monthly_stats (ts : List Transaction) (b : String × MonthStats)
    (h : b ∈ monthly_stats ts) : b.2 = statsFor ts b.1 := by
  unfold monthly_stats at h
  simp only [List.mem_map] at h
  obtain ⟨k, -, hk⟩ := h
  rw [← hk]

lemma sum_map_add {α : Type} (f g : α → ℚ) (l : List α) :
    (l.map (fun x => f x + g x)).sum = (l.map f).sum + (l.map g).sum := by
  induction l with
  | nil => simp
  | cons a l ih => simp [ih]; ring

lemma sum_map_ite_eq (c : ℚ) (x : String) (K : List String)
    (hnd : K.Nodup) (hx : x ∈ K) :
    (K.map (fun k => if x = k then c else 0)).sum = c := by
  induction K with
  | nil => simp at hx
  | cons a l ih =>
    rcases List.mem_cons.1 hx with h | h
    · subst h
      have hnl : x ∉ l := (List.nodup_cons.1 hnd).1
      simp only [List.map_cons, List.sum_cons, if_pos rfl]
      have : (l.map (fun k => if x = k then c else 0)).sum = 0 := by
        apply List.sum_eq_zero
        intro y hy
        obtain ⟨k, hk, hky⟩ := List.mem_map.1 hy
        rw [← hky, if_neg]
        intro hxk
        exact hnl (hxk ▸ hk)
      rw [this, add_zero]
      simp
    · have hax : ¬ x = a := by
        intro hxa
        exact (List.nodup_cons.1 hnd).1 (hxa ▸ h)
      simp only [List.map_cons, List.sum_cons, if_neg hax, zero_add]
      exact ih (List.nodup_cons.1 hnd).2 h

lemma sum_partition {α : Type} (key : α → String) (f : α → ℚ) (ts : List α)
    (K : List String) (hnd : K.Nodup) (hcov : ∀ t ∈ ts, key t ∈ K) :
    (K.map (fun k => ((ts.filter (fun t => key t == k)).map f).sum)).sum
      = (ts.map f).sum := by
  induction ts with
  | nil => simp
  | cons t ts ih =>
    have hmem : key t ∈ K := hcov t (List.mem_cons_self _ _)
    have hrest : ∀ x ∈ ts, key x ∈ K := fun x hx => hcov x (List.mem_cons_of_mem _ hx)
    have hsplit : ∀ k, (((t :: ts).filter (fun x => key x == k)).map f).sum
        = (if key t = k then f t else 0)
          + ((ts.filter (fun x => key x == k)).map f).sum := by
      intro k
      by_cases h : key t = k
      · simp [List.filter_cons, h]
      · simp [List.filter_cons, h]
    calc (K.map (fun k => (((t :: ts).filter (fun x => key x == k)).map f).sum)).sum
        = (K.map (fun k => (if key t = k then f t else 0)
            + ((ts.filter (fun x => key x == k)).map f).sum)).sum := by
          exact congrArg List.sum (List.map_congr_left (fun k _ => hsplit k))
      _ = (K.map (fun k => if key t = k then f t else 0)).sum
            + (K.map (fun k => ((ts.filter (fun x => key x == k)).map f).sum)).sum :=
          sum_map_add _ _ K
      _ = f t + (ts.map f).sum := by
          rw [sum_map_ite_eq (f t) (key t) K hnd hmem, ih hrest]
      _ = ((t :: ts).map f).sum := by simp

lemma statsFor_income_eq (ts : List Transaction) (k : String) :
    (statsFor ts k).income =
      ((ts.filter (fun t => monthKey t.date == k && t.transaction_type == "income")).map
        (fun t => t.amount)).sum := by
  simp only [statsFor]
  rw [List.filter_filter]
  refine congrArg _ (congrArg _ (List.filter_congr ?_))
  intro t _
  exact Bool.and_comm _ _

lemma statsFor_expenses_eq (ts : List Transaction) (k : String) :
    (statsFor ts k).expenses =
      ((ts.filter (fun t => monthKey t.date == k && !(t.transaction_type == "income"))).map
        (fun t => t.amount)).sum := by
  simp only [statsFor]
  rw [List.filter_filter]
  refine congrArg _ (congrArg _ (List.filter_congr ?_))
  intro t _
  exact Bool.and_comm _ _

lemma statsFor_savings (ts : List Transaction) (k : String) :
    (statsFor ts k).savings = (statsFor ts k).income - (statsFor ts k).expenses := by
  simp only [statsFor]

lemma statsFor_income_swap (ts : List Transaction) (k : String) :
    (statsFor ts k).income =
      (((ts.filter (fun t => t.transaction_type == "income")).filter
        (fun t => monthKey t.date == k)).map (fun t => t.amount)).sum := by
  simp only [statsFor]
  rw [List.filter_filter, List.filter_filter]
  refine congrArg _ (congrArg _ (List.filter_congr ?_))
  intro t _
  exact Bool.and_comm _ _

lemma statsFor_expenses_swap (ts : List Transaction) (k : String) :
    (statsFor ts k).expenses =
      (((ts.filter (fun t => !(t.transaction_type == "income"))).filter
        (fun t => monthKey t.date == k)).map (fun t => t.amount)).sum := by
  simp only [statsFor]
  rw [List.filter_filter, List.filter_filter]
  refine congrArg _ (congrArg _ (List.filter_congr ?_))
  intro t _
  exact Bool.and_comm _ _

/-!  Concrete fixtures used by witnesses and counterexamples. -/

/-- A debit card with balance 1000, as in the spec's concrete scenarios. -/
def debitCard : Card := { id := 1, name := "Main", card_type := "debit", balance := 1000 }

/-- A store holding just the debit card. -/
def st1 : AppState := { cards := [debitCard], txns := [] }

/-- C1: for the four documented (card kind, transaction kind) combinations
the recorded transaction changes the card's balance by exactly the sign
table's delta — but the second half of the claim fails: a fifth combination
is accepted rather than rejected.  Amended statement: whenever the card
exists, the request is accepted (never rejected), the transaction is
appended, and the balance changes by the code's delta, which agrees with
the 2x2 sign table on all four documented combinations. -/
theorem add_transaction_sign_table (card_id : Nat) (tt : String) (a : ℚ)
    (d cat : String) (dt : Date) (st : AppState) (c : Card)
    (hc : st.cards.find? (fun x => x.id == card_id) = some c) :
    (∃ st', add_transaction card_id tt a d cat dt st = .ok st' ∧
        balanceOf st' card_id = some (c.balance + delta c.card_type tt a) ∧
        st'.txns = st.txns ++ [new_transaction card_id tt a d cat dt st]) ∧
    ∀ dd : ℚ, signTableDelta c.card_type tt a = some dd →
      delta c.card_type tt a = dd := by
  constructor
  · refine ⟨_, add_transaction_ok card_id tt a d cat dt st c hc, ?_, rfl⟩
    unfold balanceOf
    rw [find?_update st.cards card_id c (new_balance c tt a) hc]
    simp [new_balance_eq_delta]
  · intro dd hdd
    exact signTableDelta_delta _ _ _ _ hdd

/-- C1 witness: the debit/expense row of the sign table at amount 100 on the
concrete one-card store. -/
theorem add_transaction_sign_table_witness :
    st1.cards.find? (fun x => x.id == 1) = some debitCard ∧
    ((∃ st', add_transaction 1 "expense" 100 "g" "Food" ⟨2024, 1, 15⟩ st1 = .ok st' ∧
        balanceOf st' 1 = some (debitCard.balance + delta debitCard.card_type "expense" 100) ∧
        st'.txns = st1.txns ++ [new_transaction 1 "expense" 100 "g" "Food" ⟨2024, 1, 15⟩ st1]) ∧
      ∀ dd : ℚ, signTableDelta debitCard.card_type "expense" 100 = some dd →
        delta debitCard.card_type "expense" 100 = dd) :=
  ⟨by decide,
   add_transaction_sign_table 1 "expense" 100 "g" "Food" ⟨2024, 1, 15⟩ st1 debitCard (by decide)⟩

/-- C1 counterexample: the fifth combination (debit, 'refund') is accepted,
recorded, and treated as income — the claim's "no fifth combination is
accepted" is false. -/
theorem add_transaction_fifth_combination_accepted :
    add_transaction 1 "refund" 5 "r" "Other" ⟨2024, 3, 1⟩ st1 =
      .ok { cards := [{ id := 1, name := "Main", card_type := "debit", balance := 1005 }],
            txns := [{ id := 1, card_id := 1, transaction_type := "refund", amount := 5,
                       description := "r", category := "Other", date := ⟨2024, 3, 1⟩ }] } := by
  rw [add_transaction]
  rw [show st1.cards.find? (fun c => c.id == 1) = some debitCard from by decide]
  norm_num [st1, debitCard, nextTxnId, new_balance, new_transaction]
  decide

/-- C2: for any card and any sequence of recorded transactions with kinds
income/expense, after the whole sequence is recorded the card's balance is
its initial balance plus the sum of the section 4.1 sign-table deltas, in
recording order. -/
theorem balance_fold_invariant (card_id : Nat) (ck : CardKind)
    (pairs : List (TxnKind × ℚ)) (reqs : List TxnReq) (st : AppState) (c : Card)
    (hc : st.cards.find? (fun x => x.id == card_id) = some c)
    (hck : c.card_type = ck.str)
    (hreqs : reqs.map (fun r => (r.transaction_type, r.amount))
      = pairs.map (fun p => (p.1.str, p.2))) :
    ∃ st', recordAll card_id reqs st = .ok st' ∧
      balanceOf st' card_id =
        some (c.balance + (pairs.map (fun p => specDelta ck p.1 p.2)).sum) := by
  obtain ⟨st', hrec, hfind⟩ := recordAll_ok card_id reqs st c hc
  refine ⟨st', hrec, ?_⟩
  unfold balanceOf
  rw [hfind]
  simp only [Option.map_some']
  have h1 : reqs.map (fun r => delta c.card_type r.transaction_type r.amount)
      = (reqs.map (fun r => (r.transaction_type, r.amount))).map
          (fun q => delta c.card_type q.1 q.2) := by
    rw [List.map_map]
    rfl
  have h2 : reqs.map (fun r => delta c.card_type r.transaction_type r.amount)
      = pairs.map (fun p => specDelta ck p.1 p.2) := by
    rw [h1, hreqs, List.map_map]
    refine List.map_congr_left ?_
    intro p _
    show delta c.card_type p.1.str p.2 = specDelta ck p.1 p.2
    rw [hck, delta_str]
  rw [h2]

/-- The five requests of the spec's concrete scenario 5. -/
def scenario5 : List TxnReq :=
  [{ transaction_type := "income", amount := 1000, description := "s",
     category := "Other", date := ⟨2024, 1, 15⟩ },
   { transaction_type := "expense", amount := 150, description := "s",
     category := "Other", date := ⟨2024, 1, 15⟩ },
   { transaction_type := "expense", amount := 75.5, description := "s",
     category := "Other", date := ⟨2024, 1, 15⟩ },
   { transaction_type := "income", amount := 200, description := "s",
     category := "Other", date := ⟨2024, 1, 15⟩ },
   { transaction_type := "expense", amount := 300, description := "s",
     category := "Other", date := ⟨2024, 1, 15⟩ }]

/-- The kind/amount pairs of scenario 5 in the spec's vocabulary. -/
def scenario5pairs : List (TxnKind × ℚ) :=
  [(.income, 1000), (.expense, 150), (.expense, 75.5), (.income, 200), (.expense, 300)]

/-- C2 witness: spec scenario 5 on the debit card with balance 1000. -/
theorem balance_fold_invariant_witness :
    st1.cards.find? (fun x => x.id == 1) = some debitCard ∧
    debitCard.card_type = CardKind.debit.str ∧
    scenario5.map (fun r => (r.transaction_type, r.amount))
      = scenario5pairs.map (fun p => (p.1.str, p.2)) ∧
    ∃ st', recordAll 1 scenario5 st1 = .ok st' ∧
      balanceOf st' 1 =
        some (debitCard.balance +
          (scenario5pairs.map (fun p => specDelta CardKind.debit p.1 p.2)).sum) :=
  ⟨by decide, rfl, by norm_num [scenario5, scenario5pairs, TxnKind.str],
   balance_fold_invariant 1 CardKind.debit scenario5pairs scenario5 st1 debitCard
     (by decide) rfl (by norm_num [scenario5, scenario5pairs, TxnKind.str])⟩

/-- C3 (amended): the route performs no kind validation — a transaction
whose kind is outside {income, expense} is not rejected with InvalidKind;
it is recorded with its kind string, and the card's balance changes by the
income delta (the bare else branches on src/app.py lines 99 and 104). -/
theorem unknown_kind_not_rejected (card_id : Nat) (tt : String) (a : ℚ)
    (d cat : String) (dt : Date) (st : AppState) (c : Card)
    (hc : st.cards.find? (fun x => x.id == card_id) = some c)
    (h1 : tt ≠ "income") (h2 : tt ≠ "expense") :
    ∃ st', add_transaction card_id tt a d cat dt st = .ok st' ∧
      st'.txns = st.txns ++ [new_transaction card_id tt a d cat dt st] ∧
      balanceOf st' card_id = some (c.balance + delta c.card_type "income" a) := by
  refine ⟨_, add_transaction_ok card_id tt a d cat dt st c hc, rfl, ?_⟩
  unfold balanceOf
  rw [find?_update st.cards card_id c (new_balance c tt a) hc]
  simp only [Option.map_some']
  have hb : (tt == "expense") = false := by
    simpa using h2
  rw [new_balance_eq_delta]
  unfold delta
  rw [hb]
  simp

/-- C3 witness: kind 'transfer' on the concrete one-card store. -/
theorem unknown_kind_not_rejected_witness :
    st1.cards.find? (fun x => x.id == 1) = some debitCard ∧
    ("transfer" ≠ "income") ∧ ("transfer" ≠ "expense") ∧
    ∃ st', add_transaction 1 "transfer" 100 "t" "Other" ⟨2024, 1, 15⟩ st1 = .ok st' ∧
      st'.txns = st1.txns ++ [new_transaction 1 "transfer" 100 "t" "Other" ⟨2024, 1, 15⟩ st1] ∧
      balanceOf st' 1 = some (debitCard.balance + delta debitCard.card_type "income" 100) :=
  ⟨by decide, by decide, by decide,
   unknown_kind_not_rejected 1 "transfer" 100 "t" "Other" ⟨2024, 1, 15⟩ st1 debitCard
     (by decide) (by decide) (by decide)⟩

/-- C3 counterexample: a 'transfer' request is not rejected; it records a
transaction and moves the balance from 1000 to 1100, contradicting the
claim that it fails with InvalidKind and changes nothing. -/
theorem unknown_kind_accepted_counterexample :
    (add_transaction 1 "transfer" 100 "t" "Other" ⟨2024, 1, 15⟩ st1).isRejected = false ∧
    add_transaction 1 "transfer" 100 "t" "Other" ⟨2024, 1, 15⟩ st1 =
      .ok { cards := [{ id := 1, name := "Main", card_type := "debit", balance := 1100 }],
            txns := [{ id := 1, card_id := 1, transaction_type := "transfer", amount := 100,
                       description := "t", category := "Other", date := ⟨2024, 1, 15⟩ }] } := by
  constructor
  · decide
  · rw [add_transaction]
    rw [show st1.cards.find? (fun c => c.id == 1) = some debitCard from by decide]
    norm_num [st1, debitCard, nextTxnId, new_balance, new_transaction]
    decide

/-- C4 (amended): when the card id references no existing Card, the handler
raises an uncaught AttributeError (Card.query.get returned None and line 96
dereferences it) rather than returning an explicit NotFound failure value;
no new state is produced, so no transaction is created and no balance
changes. -/
theorem missing_card_raises (card_id : Nat) (tt : String) (a : ℚ)
    (d cat : String) (dt : Date) (st : AppState)
    (h : st.cards.find? (fun x => x.id == card_id) = none) :
    add_transaction card_id tt a d cat dt st =
      .exn "AttributeError: NoneType has no attribute card_type" ∧
    (∀ st', add_transaction card_id tt a d cat dt st ≠ .ok st') ∧
    (∀ e, add_transaction card_id tt a d cat dt st ≠ .rejected e) := by
  have hx := add_transaction_none card_id tt a d cat dt st h
  refine ⟨hx, ?_, ?_⟩
  · intro st' hok
    rw [hx] at hok
    cases hok
  · intro e he
    rw [hx] at he
    cases he

/-- C4 witness: card id 7 does not exist in the one-card store. -/
theorem missing_card_raises_witness :
    st1.cards.find? (fun x => x.id == 7) = none ∧
    (add_transaction 7 "expense" 100 "t" "Other" ⟨2024, 1, 15⟩ st1 =
        .exn "AttributeError: NoneType has no attribute card_type" ∧
      (∀ st', add_transaction 7 "expense" 100 "t" "Other" ⟨2024, 1, 15⟩ st1 ≠ .ok st') ∧
      (∀ e, add_transaction 7 "expense" 100 "t" "Other" ⟨2024, 1, 15⟩ st1 ≠ .rejected e)) :=
  ⟨by decide,
   missing_card_raises 7 "expense" 100 "t" "Other" ⟨2024, 1, 15⟩ st1 (by decide)⟩

/-- C4 counterexample: for a missing card the handler's outcome is the
uncaught AttributeError, not the explicit NotFound failure value the claim
asserts. -/
theorem missing_card_counterexample :
    add_transaction 7 "expense" 100 "t" "Other" ⟨2024, 1, 15⟩ st1 =
      .exn "AttributeError: NoneType has no attribute card_type" ∧
    add_transaction 7 "expense" 100 "t" "Other" ⟨2024, 1, 15⟩ st1 ≠
      .rejected LedgerError.notFound := by
  constructor
  · decide
  · decide

/-- C5: the balance update and the transaction insert are covered by one
commit.  On StorageFailure the observable store is exactly the original
state, and for every commit outcome the observable store is either the
original state (neither effect) or the fully staged state (both the updated
balance and the appended transaction) — never a state with exactly one of
the two effects. -/
theorem commit_atomicity (outcome : CommitOutcome) (card_id : Nat) (tt : String)
    (a : ℚ) (d cat : String) (dt : Date) (st : AppState) :
    (add_transaction_withCommit .storageFailure card_id tt a d cat dt st).2 = st ∧
    ((add_transaction_withCommit outcome card_id tt a d cat dt st).2 = st ∨
      ∃ c, st.cards.find? (fun x => x.id == card_id) = some c ∧
        (add_transaction_withCommit outcome card_id tt a d cat dt st).2 =
          { cards := st.cards.map (fun x => if x.id == card_id then
              { x with balance := new_balance c tt a } else x),
            txns := st.txns ++ [new_transaction card_id tt a d cat dt st] }) := by
  cases hfind : st.cards.find? (fun x => x.id == card_id) with
  | none =>
    have hx := add_transaction_none card_id tt a d cat dt st hfind
    constructor
    · unfold add_transaction_withCommit
      rw [hx]
    · left
      unfold add_transaction_withCommit
      rw [hx]
  | some c =>
    have hx := add_transaction_ok card_id tt a d cat dt st c hfind
    constructor
    · unfold add_transaction_withCommit
      rw [hx]
    · cases outcome with
      | committed =>
        right
        refine ⟨c, rfl, ?_⟩
        unfold add_transaction_withCommit
        rw [hx]
      | storageFailure =>
        left
        unfold add_transaction_withCommit
        rw [hx]

/-- C6: monthly statistics group transactions of all cards by the year-month
key of their date; each bucket's income is the sum of that month's income
amounts, expenses the sum of that month's expense amounts, and savings is
income minus expenses.  (Stated for transaction sets whose kinds respect
the data model's {income, expense} invariant; see C10 for kinds outside
it.) -/
theorem monthly_stats_buckets (ts : List Transaction)
    (h : ∀ t ∈ ts, t.transaction_type = "income" ∨ t.transaction_type = "expense") :
    ∀ b ∈ monthly_stats ts,
      b.2.income = ((ts.filter (fun t => monthKey t.date == b.1
          && t.transaction_type == "income")).map (fun t => t.amount)).sum ∧
      b.2.expenses = ((ts.filter (fun t => monthKey t.date == b.1
          && t.transaction_type == "expense")).map (fun t => t.amount)).sum ∧
      b.2.savings = b.2.income - b.2.expenses := by
  intro b hb
  rw [mem_monthly_stats ts b hb]
  refine ⟨statsFor_income_eq ts b.1, ?_, statsFor_savings ts b.1⟩
  rw [statsFor_expenses_eq]
  refine congrArg _ (congrArg _ (List.filter_congr ?_))
  intro t ht
  rcases h t ht with h' | h' <;> rw [h'] <;> simp

/-- The two transactions of the spec's concrete scenario 6. -/
def scenario6 : List Transaction :=
  [{ id := 1, card_id := 1, transaction_type := "expense", amount := 100,
     description := "a", category := "Other", date := ⟨2024, 1, 15⟩ },
   { id := 2, card_id := 1, transaction_type := "income", amount := 50,
     description := "b", category := "Other", date := ⟨2024, 2, 1⟩ }]

/-- C6 witness: spec scenario 6. -/
theorem monthly_stats_buckets_witness :
    (∀ t ∈ scenario6, t.transaction_type = "income" ∨ t.transaction_type = "expense") ∧
    ∀ b ∈ monthly_stats scenario6,
      b.2.income = ((scenario6.filter (fun t => monthKey t.date == b.1
          && t.transaction_type == "income")).map (fun t => t.amount)).sum ∧
      b.2.expenses = ((scenario6.filter (fun t => monthKey t.date == b.1
          && t.transaction_type == "expense")).map (fun t => t.amount)).sum ∧
      b.2.savings = b.2.income - b.2.expenses :=
  ⟨by decide, monthly_stats_buckets scenario6 (by decide)⟩

/-- C7: the bucket sequence is strictly descending in the month key, has no
duplicate keys, and contains exactly the months in which some transaction
occurred. -/
theorem monthly_stats_ordering (ts : List Transaction) :
    ((monthly_stats ts).map Prod.fst).Pairwise (fun a b => b < a) ∧
    ((monthly_stats ts).map Prod.fst).Nodup ∧
    ∀ k : String, k ∈ (monthly_stats ts).map Prod.fst ↔ ∃ t ∈ ts, monthKey t.date = k :=
  ⟨keys_strict_descending ts, keys_nodup ts, fun k => mem_keys_iff ts k⟩

lemma bucket_sum (ts : List Transaction) (p : Transaction → Bool) :
    ((((ts.map (fun t => monthKey t.date)).dedup).insertionSort (fun a b => b ≤ a)).map
        (fun k => (((ts.filter p).filter (fun t => monthKey t.date == k)).map
          (fun t => t.amount)).sum)).sum
      = ((ts.filter p).map (fun t => t.amount)).sum := by
  have hperm : List.Perm
      (((ts.map (fun t => monthKey t.date)).dedup).insertionSort (fun a b => b ≤ a))
      ((ts.map (fun t => monthKey t.date)).dedup) :=
    List.perm_insertionSort _ _
  rw [(hperm.map _).sum_eq]
  exact sum_partition (fun t => monthKey t.date) (fun t => t.amount) (ts.filter p)
    ((ts.map (fun t => monthKey t.date)).dedup) (List.nodup_dedup _)
    (fun t ht => List.mem_dedup.2 (List.mem_map_of_mem _ (List.mem_of_mem_filter ht)))

/-- C8: summing income over all returned month buckets equals the total of
all income amounts in the transaction set, and likewise for expenses.
(Stated for transaction sets whose kinds respect the data model's
{income, expense} invariant; see C10 for kinds outside it.) -/
theorem aggregation_sum_law (ts : List Transaction)
    (h : ∀ t ∈ ts, t.transaction_type = "income" ∨ t.transaction_type = "expense") :
    ((monthly_stats ts).map (fun b => b.2.income)).sum =
      ((ts.filter (fun t => t.transaction_type == "income")).map (fun t => t.amount)).sum ∧
    ((monthly_stats ts).map (fun b => b.2.expenses)).sum =
      ((ts.filter (fun t => t.transaction_type == "expense")).map (fun t => t.amount)).sum := by
  constructor
  · have hmap : (monthly_stats ts).map (fun b => b.2.income)
        = (((ts.map (fun t => monthKey t.date)).dedup).insertionSort (fun a b => b ≤ a)).map
            (fun k => (statsFor ts k).income) := by
      simp only [monthly_stats, List.map_map]
      rfl
    rw [hmap]
    have hswap : ∀ k, (statsFor ts k).income =
        (((ts.filter (fun t => t.transaction_type == "income")).filter
          (fun t => monthKey t.date == k)).map (fun t => t.amount)).sum :=
      statsFor_income_swap ts
    calc ((((ts.map (fun t => monthKey t.date)).dedup).insertionSort (fun a b => b ≤ a)).map
            (fun k => (statsFor ts k).income)).sum
        = ((((ts.map (fun t => monthKey t.date)).dedup).insertionSort (fun a b => b ≤ a)).map
            (fun k => (((ts.filter (fun t => t.transaction_type == "income")).filter
              (fun t => monthKey t.date == k)).map (fun t => t.amount)).sum)).sum := by
          exact congrArg List.sum (List.map_congr_left (fun k _ => hswap k))
      _ = ((ts.filter (fun t => t.transaction_type == "income")).map (fun t => t.amount)).sum :=
          bucket_sum ts _
  · have hfe : ts.filter (fun t => !(t.transaction_type == "income"))
        = ts.filter (fun t => t.transaction_type == "expense") := by
      refine List.filter_congr ?_
      intro t ht
      rcases h t ht with h' | h' <;> rw [h'] <;> simp
    have hmap : (monthly_stats ts).map (fun b => b.2.expenses)
        = (((ts.map (fun t => monthKey t.date)).dedup).insertionSort (fun a b => b ≤ a)).map
            (fun k => (statsFor ts k).expenses) := by
      simp only [monthly_stats, List.map_map]
      rfl
    rw [hmap]
    calc ((((ts.map (fun t => monthKey t.date)).dedup).insertionSort (fun a b => b ≤ a)).map
            (fun k => (statsFor ts k).expenses)).sum
        = ((((ts.map (fun t => monthKey t.date)).dedup).insertionSort (fun a b => b ≤ a)).map
            (fun k => (((ts.filter (fun t => t.transaction_type == "expense")).filter
              (fun t => monthKey t.date == k)).map (fun t => t.amount)).sum)).sum := by
          refine congrArg List.sum (List.map_congr_left (fun k _ => ?_))
          rw [statsFor_expenses_swap ts k, hfe]
      _ = ((ts.filter (fun t => t.transaction_type == "expense")).map (fun t => t.amount)).sum :=
          bucket_sum ts _

/-- C8 witness: spec scenario 6. -/
theorem aggregation_sum_law_witness :
    (∀ t ∈ scenario6, t.transaction_type = "income" ∨ t.transaction_type = "expense") ∧
    (((monthly_stats scenario6).map (fun b => b.2.income)).sum =
      ((scenario6.filter (fun t => t.transaction_type == "income")).map
        (fun t => t.amount)).sum ∧
    ((monthly_stats scenario6).map (fun b => b.2.expenses)).sum =
      ((scenario6.filter (fun t => t.transaction_type == "expense")).map
        (fun t => t.amount)).sum) :=
  ⟨by decide, aggregation_sum_law scenario6 (by decide)⟩

/-- C9: deleting an existing card removes all of its transactions (cascade),
leaves the other cards' transactions untouched, and later aggregations are
computed from exactly the surviving transactions. -/
theorem delete_card_cascade (card_id : Nat) (st st' : AppState)
    (h : delete_card card_id st = some st') :
    (∀ t ∈ st'.txns, t.card_id ≠ card_id) ∧
    st'.txns = st.txns.filter (fun t => !(t.card_id == card_id)) ∧
    st'.cards = st.cards.filter (fun c => !(c.id == card_id)) ∧
    monthly_stats st'.txns =
      monthly_stats (st.txns.filter (fun t => !(t.card_id == card_id))) := by
  unfold delete_card at h
  cases hfind : st.cards.find? (fun c => c.id == card_id) with
  | none =>
    rw [hfind] at h
    cases h
  | some c =>
    rw [hfind] at h
    cases h
    refine ⟨?_, rfl, rfl, rfl⟩
    intro t ht
    have hm := List.mem_filter.1 ht
    simpa using hm.2

/-- A second card and a transaction log spread over both cards. -/
def st2 : AppState :=
  { cards := [debitCard, { id := 2, name := "Visa", card_type := "credit", balance := 0 }],
    txns := [{ id := 1, card_id := 1, transaction_type := "expense", amount := 100,
               description := "a", category := "Other", date := ⟨2024, 1, 15⟩ },
             { id := 2, card_id := 2, transaction_type := "expense", amount := 40,
               description := "b", category := "Other", date := ⟨2024, 1, 20⟩ },
             { id := 3, card_id := 1, transaction_type := "income", amount := 50,
               description := "c", category := "Other", date := ⟨2024, 2, 1⟩ }] }

/-- The store st2 after delete_card 1: only the credit card and its
transaction survive. -/
def st2del : AppState :=
  { cards := [{ id := 2, name := "Visa", card_type := "credit", balance := 0 }],
    txns := [{ id := 2, card_id := 2, transaction_type := "expense", amount := 40,
               description := "b", category := "Other", date := ⟨2024, 1, 20⟩ }] }

/-- C9 witness: deleting card 1 from the two-card store. -/
theorem delete_card_cascade_witness :
    delete_card 1 st2 = some st2del ∧
    ((∀ t ∈ st2del.txns, t.card_id ≠ 1) ∧
      st2del.txns = st2.txns.filter (fun t => !(t.card_id == 1)) ∧
      st2del.cards = st2.cards.filter (fun c => !(c.id == 1)) ∧
      monthly_stats st2del.txns =
        monthly_stats (st2.txns.filter (fun t => !(t.card_id == 1)))) :=
  ⟨by decide, delete_card_cascade 1 st2 st2del (by decide)⟩

/-- C10: a recorded transaction whose kind is neither 'income' nor 'expense'
is treated as income by the ledger (balance +amount on a debit card,
-amount otherwise) yet counted under expenses by the monthly aggregation's
bare else — the two components classify unknown kinds oppositely. -/
theorem unknown_kind_divergence (card_id : Nat) (tt : String) (a : ℚ)
    (d cat : String) (dt : Date) (st : AppState) (c : Card)
    (hc : st.cards.find? (fun x => x.id == card_id) = some c)
    (h1 : tt ≠ "income") (h2 : tt ≠ "expense") :
    (∃ st', add_transaction card_id tt a d cat dt st = .ok st' ∧
        balanceOf st' card_id =
          some (c.balance + (if c.card_type == "debit" then a else -a))) ∧
    monthly_stats [new_transaction card_id tt a d cat dt st] =
      [(monthKey dt, { income := 0, expenses := a, savings := -a })] := by
  have hb1 : (tt == "income") = false := by simpa using h1
  have hb2 : (tt == "expense") = false := by simpa using h2
  constructor
  · refine ⟨_, add_transaction_ok card_id tt a d cat dt st c hc, ?_⟩
    unfold balanceOf
    rw [find?_update st.cards card_id c (new_balance c tt a) hc]
    simp only [Option.map_some']
    rw [new_balance_eq_delta]
    unfold delta
    rw [hb2]
    by_cases hd : (c.card_type == "debit") = true <;> simp [hd]
  · simp [monthly_stats, List.insertionSort, List.orderedInsert, statsFor,
      new_transaction, List.filter_cons, hb1, zero_sub]

/-- C10 witness: a 'transfer' for 100 credited to the debit card's balance
but counted as an expense by the aggregation. -/
theorem unknown_kind_divergence_witness :
    st1.cards.find? (fun x => x.id == 1) = some debitCard ∧
    ("transfer" ≠ "income") ∧ ("transfer" ≠ "expense") ∧
    ((∃ st', add_transaction 1 "transfer" 100 "t" "Other" ⟨2024, 1, 15⟩ st1 = .ok st' ∧
        balanceOf st' 1 =
          some (debitCard.balance + (if debitCard.card_type == "debit" then (100 : ℚ) else -100))) ∧
      monthly_stats [new_transaction 1 "transfer" 100 "t" "Other" ⟨2024, 1, 15⟩ st1] =
        [(monthKey ⟨2024, 1, 15⟩, { income := 0, expenses := 100, savings := -100 })]) :=
  ⟨by decide, by decide, by decide,
   unknown_kind_divergence 1 "transfer" 100 "t" "Other" ⟨2024, 1, 15⟩ st1 debitCard
     (by decide) (by decide) (by decide)⟩
